import Mathlib

/-
Verification of utils_nlp/models/mtdnn/modeling_mtdnn.py (MT-DNN model
construction and forward dispatch) against its design specification.

The embedding is shallow: tensors are tracked by their shapes, stateful
Python objects become explicit records, and every fallible Python
operation (attribute lookup, name resolution, indexing, assertion,
tensor-shape checks) returns `Except PyErr`.  Machine floats never decide
any claim below, so tensor contents are not modelled.
-/

namespace MTDNN

/-- Modelled from the spec: task-type enum from
utils_nlp/models/mtdnn/common/types.py (that file is not under src/;
the spec lists the task types Span, SequenceLabeling and
Other/Classification). -/
inductive TaskType
  | Span
  | SequenceLabeling
  | Other
deriving DecidableEq, Repr

/-- Modelled from the spec: encoder-type enum from
utils_nlp/models/mtdnn/common/types.py (not under src/; the spec lists a
BERT-like and a RoBERTa-like encoder choice). -/
inductive EncoderModelType
  | BERT
  | ROBERTA
deriving DecidableEq, Repr

/-- Modelled from the spec: the configuration record
(utils_nlp/models/mtdnn/configuration_mtdnn.py is not under src/).  The
spec describes a record of global and per-task settings: encoder type,
task types, class counts, per-task dropout probabilities, decoder option
codes, an encoder-freezing flag and a feature-dump flag, plus the init
ratio used by weight initialization and the checkpoint name for the
RoBERTa loader. -/
structure MTDNNConfig where
  encoder_type : EncoderModelType
  dump_feature : Bool
  update_bert_opt : Nat
  decoder_opts : List Int
  task_types : List TaskType
  n_class : List Nat
  tasks_dropout_p : List Rat
  enable_variational_dropout : Bool
  init_ratio : Rat
  init_checkpoint : String
  hidden_size : Nat
deriving DecidableEq, Repr

/-- Python runtime failures that the code under src/ can raise.  Each
constructor records the data needed to tell the failures apart. -/
inductive PyErr
  | nameError (missing : String)
  | unboundLocalError (missing : String)
  | attributeError (obj attrName : String)
  | assertionError
  | typeError (msg : String)
  | valueError (msg : String)
  | runtimeError (msg : String)
  | indexError
deriving DecidableEq, Repr

/-- A tensor, tracked by its shape only (list of dimension sizes).  All
claims about forward concern shapes, never element values. -/
structure Tensor where
  shape : List Nat
deriving DecidableEq, Repr

/-- Modelled from the spec: DropoutWrapper
(utils_nlp/models/mtdnn/common/dropout_wrapper.py is not under src/).
The spec says each task head has a dropout module with a per-task rate
and an optional variational mode; dropout preserves tensor shape. -/
structure DropoutWrapperM where
  p : Rat
  variational : Bool
deriving DecidableEq, Repr

/-- An nn.Linear module, tracked by its in/out feature counts. -/
structure LinearM where
  in_features : Nat
  out_features : Nat
deriving DecidableEq, Repr

/-- The attribute state of an MTDNNModel instance.  Fields that
MTDNNModel.__init__ (modeling_mtdnn.py lines 54-105) assigns only on some
paths are `Option`s: `none` means the Python attribute was never
assigned, so reading it raises AttributeError.  `dropout_list` is always
assigned (line 59), initially empty. -/
structure ModelState where
  encoder_type : EncoderModelType
  hidden_size : Nat
  pooler : Option Nat
  dropout_list : List DropoutWrapperM
  decoder_opts : Option (List Int)
  scoring_list : Option (List LinearM)
  task_types : Option (List TaskType)
  n_class : Option (List Nat)
  bert_frozen : Bool
  local_updates : Nat
deriving DecidableEq, Repr

/-- Python list subscription `xs[i]` with an int index: a negative index
is shifted by the length once; a still-negative or too-large index raises
IndexError.  nn.ModuleList subscription behaves the same way. -/
def pyGet {α : Type} (xs : List α) (i : Int) : Except PyErr α :=
  let j : Int := if i < 0 then i + xs.length else i
  if j < 0 then Except.error PyErr.indexError
  else
    match xs.get? j.toNat with
    | some v => Except.ok v
    | none => Except.error PyErr.indexError

/-- Last dimension of a shape (torch `t.size(-1)` on a shape list). -/
def lastDim : List Nat → Option Nat
  | [] => none
  | [d] => some d
  | _ :: ds => lastDim ds

/-- A shape with its last dimension removed. -/
def dropLastDim : List Nat → List Nat
  | [] => []
  | [_] => []
  | d :: ds => d :: dropLastDim ds

/-- torch `squeeze(-1)`: drops the last dimension when it is 1,
otherwise leaves the tensor unchanged. -/
def squeezeLast (t : Tensor) : Tensor :=
  match lastDim t.shape with
  | some d => if d = 1 then ⟨dropLastDim t.shape⟩ else t
  | none => t

/-- Applying an nn.Linear module to a tensor: acts on the last
dimension, which must equal `in_features`; on a mismatch torch raises a
RuntimeError. -/
def linearApply (m : LinearM) (t : Tensor) : Except PyErr Tensor :=
  match lastDim t.shape with
  | some d =>
    if d = m.in_features then Except.ok ⟨dropLastDim t.shape ++ [m.out_features]⟩
    else Except.error (PyErr.runtimeError "mat1 and mat2 shapes cannot be multiplied")
  | none => Except.error (PyErr.runtimeError "mat1 and mat2 shapes cannot be multiplied")

/-- DropoutWrapper application: shape-preserving (see DropoutWrapperM). -/
def dropoutApply (_d : DropoutWrapperM) (t : Tensor) : Tensor := t

/-- The reshape at modeling_mtdnn.py line 158:
`pooled_output.contiguous().view(-1, pooled_output.size(2))`.  At its
only call site the input is the 3-D encoder output [batch, seq, hidden],
where the call yields [batch*seq, hidden]; on a tensor with fewer than
three dimensions `size(2)` raises IndexError. -/
def view3 (t : Tensor) : Except PyErr Tensor :=
  match t.shape with
  | [a, b, c] => Except.ok ⟨[a * b, c]⟩
  | _ => Except.error PyErr.indexError

/-- Shallow embedding of MTDNNModel.__init__ (modeling_mtdnn.py lines
54-105).  External collaborators (the transformers base constructor, the
config-dict round trips at lines 61-66, the BertModel at line 67 and the
fairseq loader at line 70) are assumed to succeed, per the spec they are
out of scope.  The failures below come from the module itself:
* line 72 evaluates `LinearPooler(hidden_size)`, but the name
  hidden_size is bound neither in the locals of __init__ (only
  self.hidden_size is assigned, lines 68 and 71) nor at module level
  (lines 8-30), so the RoBERTa branch raises NameError;
* the loop body at line 93 evaluates the name DropoutWrapper, which is
  never imported in this module (imports, lines 8-28) and not defined in
  it, so any task list with at least one entry raises NameError before
  any head is built (lines 98-102 would likewise hit the unbound name
  hidden_size);
* line 105 calls self._my_init(), whose init_weights closure fails on
  the first submodule it visits (the BERT encoder always contains
  Embedding and Linear submodules): see `init_weights` below.  The first
  module visited by nn.Module.apply is the word-embedding table, an
  nn.Embedding, giving AttributeError on the unassigned attribute opt. -/
def initModel (config : MTDNNConfig) : Except PyErr ModelState :=
  let base : ModelState :=
    { encoder_type := config.encoder_type
      hidden_size := config.hidden_size
      pooler := none
      dropout_list := []
      decoder_opts := none
      scoring_list := none
      task_types := none
      n_class := none
      bert_frozen := false
      local_updates := 0 }
  if config.encoder_type = EncoderModelType.ROBERTA then
    Except.error (PyErr.nameError "hidden_size")
  else if config.dump_feature then
    Except.ok base
  else if 0 < config.n_class.length then
    Except.error (PyErr.nameError "DropoutWrapper")
  else
    Except.error (PyErr.attributeError "MTDNNModel" "opt")

/-- The kind of an nn.Module visited by the init_weights closure
(modeling_mtdnn.py lines 114-131): nn.Linear, nn.Embedding, a layer-norm
module, or anything else. -/
inductive ModuleKind
  | linear
  | embedding
  | layerNorm
  | other
deriving DecidableEq, Repr

/-- Shallow embedding of the init_weights closure inside
MTDNNModel._my_init (modeling_mtdnn.py lines 114-131), evaluated with
self the MTDNNModel under construction:
* for nn.Linear and nn.Embedding modules, line 118 evaluates
  `0.02 * self.opt["init_ratio"]` before calling normal_, but __init__
  never assigns an attribute named opt (lines 54-105), so the lookup
  raises AttributeError;
* for every other module, line 119 evaluates
  `isinstance(module, BertLayerNorm)`, but the name BertLayerNorm is
  never imported in this module (imports, lines 8-28), so it raises
  NameError. -/
def init_weights (m : ModuleKind) : Except PyErr Unit :=
  match m with
  | ModuleKind.linear => Except.error (PyErr.attributeError "MTDNNModel" "opt")
  | ModuleKind.embedding => Except.error (PyErr.attributeError "MTDNNModel" "opt")
  | ModuleKind.layerNorm => Except.error (PyErr.nameError "BertLayerNorm")
  | ModuleKind.other => Except.error (PyErr.nameError "BertLayerNorm")

/-- The constructor argument of MTDNNPretrainedModel.__init__: either an
instance of PretrainedConfig (MTDNNConfig subclasses it, per the spec)
or some other Python value, remembered by a description string. -/
inductive ConfigArg
  | pretrainedConfig (c : MTDNNConfig)
  | nonConfig (description : String)
deriving DecidableEq, Repr

/-- The ValueError message built by the format call at modeling_mtdnn.py
lines 42-48, with `clsName` substituted for both format slots.  The
grouping of the appends keeps the fixed class name PretrainedConfig as a
syntactic segment. -/
def configTypeErrorMsg (clsName : String) : String :=
  "Parameter config in `" ++ clsName ++
    "(config)` should be an instance of class `" ++
    ("PretrainedConfig" ++
      ("`. To create a model from a pretrained model use `model = " ++ clsName ++
        ".from_pretrained(PRETRAINED_MODEL_NAME)`"))

/-- Shallow embedding of MTDNNPretrainedModel.__init__
(modeling_mtdnn.py lines 39-50): a config argument that is not a
PretrainedConfig instance is rejected with a ValueError carrying the
message of lines 42-48; otherwise the config is stored on the model.
`clsName` is self.__class__.__name__. -/
def mtdnnPretrainedInit (clsName : String) (arg : ConfigArg) :
    Except PyErr MTDNNConfig :=
  match arg with
  | ConfigArg.pretrainedConfig c => Except.ok c
  | ConfigArg.nonConfig _ =>
    Except.error (PyErr.valueError (configTypeErrorMsg clsName))

/-- The value returned by a successful forward call: a pair of score
tensors (the Span branch) or a single logits tensor (the other
branches). -/
inductive FwdOut
  | pair (start_scores end_scores : Tensor)
  | single (logits : Tensor)
deriving DecidableEq, Repr

/-- The Span branch of MTDNNModel.forward (modeling_mtdnn.py lines
147-154): assert decoder_opt != 1, apply the task dropout to the
sequence output, apply the task scoring head, split the logits on the
last dimension into chunks of size 1 (binding exactly two chunks, which
needs last dimension 2), squeeze the trailing singleton dimension of
each, return the pair. -/
def spanForward (s : ModelState) (sequence_output : Tensor) (decoder_opt : Int)
    (task_id : Int) : Except PyErr FwdOut :=
  if decoder_opt = 1 then Except.error PyErr.assertionError
  else
    match pyGet s.dropout_list task_id with
    | Except.error e => Except.error e
    | Except.ok dw =>
      let seq_dropped := dropoutApply dw sequence_output
      match s.scoring_list with
      | none => Except.error (PyErr.attributeError "MTDNNModel" "scoring_list")
      | some sl =>
        match pyGet sl task_id with
        | Except.error e => Except.error e
        | Except.ok head =>
          match linearApply head seq_dropped with
          | Except.error e => Except.error e
          | Except.ok logits =>
            match lastDim logits.shape with
            | some k =>
              if k = 2 then
                Except.ok (FwdOut.pair
                  (squeezeLast ⟨dropLastDim logits.shape ++ [1]⟩)
                  (squeezeLast ⟨dropLastDim logits.shape ++ [1]⟩))
              else Except.error (PyErr.valueError "values to unpack")
            | none => Except.error (PyErr.valueError "values to unpack")

/-- The SequenceLabeling branch of MTDNNModel.forward (modeling_mtdnn.py
lines 155-160): reads `all_encoder_layers[-1]`, a local variable that is
assigned only on the BERT encoding path (line 142), so on the RoBERTa
path the read raises an unbound-local error; then applies the task
dropout, flattens batch and sequence into one leading dimension
(line 158), and applies the task scoring head.  The argument carries
only `all_encoder_layers[-1]`, the sole element the branch reads. -/
def seqLabelForward (s : ModelState) (all_encoder_layers : Option Tensor)
    (task_id : Int) : Except PyErr FwdOut :=
  match all_encoder_layers with
  | none => Except.error (PyErr.unboundLocalError "all_encoder_layers")
  | some lastLayer =>
    match pyGet s.dropout_list task_id with
    | Except.error e => Except.error e
    | Except.ok dw =>
      let dropped := dropoutApply dw lastLayer
      match view3 dropped with
      | Except.error e => Except.error e
      | Except.ok flat =>
        match s.scoring_list with
        | none => Except.error (PyErr.attributeError "MTDNNModel" "scoring_list")
        | some sl =>
          match pyGet sl task_id with
          | Except.error e => Except.error e
          | Except.ok head =>
            match linearApply head flat with
            | Except.error e => Except.error e
            | Except.ok logits => Except.ok (FwdOut.single logits)

/-- The Other branch of MTDNNModel.forward (modeling_mtdnn.py lines
161-174).  Pairwise decoder option (code 1): line 163 evaluates
`hyp_mask.size(1)` before any of the asserts, so hyp_mask = None raises
AttributeError on NoneType; `size(1)` on a tensor with fewer than two
dimensions raises IndexError; then the asserts of lines 164-166 run, the
hypothesis memory is sliced, and the scoring module is called with four
positional arguments -- but every module placed in scoring_list by
__init__ is an nn.Linear, whose forward takes a single input, so the
call raises TypeError.  Default option: apply the task dropout to the
pooled output and the task scoring head to the result. -/
def otherForward (s : ModelState) (pooled_output : Tensor)
    (premise_mask hyp_mask : Option Tensor) (decoder_opt : Int)
    (task_id : Int) : Except PyErr FwdOut :=
  if decoder_opt = 1 then
    match hyp_mask with
    | none => Except.error (PyErr.attributeError "NoneType" "size")
    | some hm =>
      match hm.shape.get? 1 with
      | none => Except.error PyErr.indexError
      | some max_query =>
        if max_query = 0 then Except.error PyErr.assertionError
        else
          match premise_mask with
          | none => Except.error PyErr.assertionError
          | some _pm =>
            match s.scoring_list with
            | none => Except.error (PyErr.attributeError "MTDNNModel" "scoring_list")
            | some sl =>
              match pyGet sl task_id with
              | Except.error e => Except.error e
              | Except.ok _head =>
                Except.error (PyErr.typeError
                  "forward takes 2 positional arguments but 5 were given")
  else
    match pyGet s.dropout_list task_id with
    | Except.error e => Except.error e
    | Except.ok dw =>
      let dropped := dropoutApply dw pooled_output
      match s.scoring_list with
      | none => Except.error (PyErr.attributeError "MTDNNModel" "scoring_list")
      | some sl =>
        match pyGet sl task_id with
        | Except.error e => Except.error e
        | Except.ok head =>
          match linearApply head dropped with
          | Except.error e => Except.error e
          | Except.ok logits => Except.ok (FwdOut.single logits)

/-- Shallow embedding of MTDNNModel.forward (modeling_mtdnn.py lines
135-174).  Step 1 (lines 138-143): on the RoBERTa path the sequence
output comes from extract_features and the pooled output from
self.pooler (reading the attribute pooler raises AttributeError when it
was never assigned); on the BERT path the encoder returns all layers
(shape [batch, seq, hidden] each; only the last is consumed, so only it
is carried) and a pooled output of shape [batch, hidden].  The encoder
and pooler shape behaviour is modelled from the spec (the encoder and
LinearPooler live outside src/): per-token output [batch, seq, hidden],
pooled output [batch, hidden-size-of-the-pooling-module].  Step 2
(lines 145-146): the decoder option and task type are subscripted by
task_id (reading the attributes decoder_opts or task_types raises
AttributeError on a dump_feature instance, which never assigns them).
Then the branch for the task type runs. -/
def forward (s : ModelState) (input_ids _token_type_ids _attention_mask : Tensor)
    (premise_mask hyp_mask : Option Tensor) (task_id : Int) :
    Except PyErr FwdOut :=
  let batch : Nat := input_ids.shape.headD 0
  let enc : Except PyErr (Tensor × Tensor × Option Tensor) :=
    if s.encoder_type = EncoderModelType.ROBERTA then
      match s.pooler with
      | none => Except.error (PyErr.attributeError "MTDNNModel" "pooler")
      | some ph =>
        Except.ok (⟨input_ids.shape ++ [s.hidden_size]⟩, ⟨[batch, ph]⟩, none)
    else
      Except.ok (⟨input_ids.shape ++ [s.hidden_size]⟩, ⟨[batch, s.hidden_size]⟩,
        some (⟨input_ids.shape ++ [s.hidden_size]⟩ : Tensor))
  match enc with
  | Except.error e => Except.error e
  | Except.ok (sequence_output, pooled_output, all_encoder_layers) =>
    match s.decoder_opts with
    | none => Except.error (PyErr.attributeError "MTDNNModel" "decoder_opts")
    | some dl =>
      match pyGet dl task_id with
      | Except.error e => Except.error e
      | Except.ok decoder_opt =>
        match s.task_types with
        | none => Except.error (PyErr.attributeError "MTDNNModel" "task_types")
        | some tl =>
          match pyGet tl task_id with
          | Except.error e => Except.error e
          | Except.ok task_type =>
            match task_type with
            | TaskType.Span => spanForward s sequence_output decoder_opt task_id
            | TaskType.SequenceLabeling =>
              seqLabelForward s all_encoder_layers task_id
            | TaskType.Other =>
              otherForward s pooled_output premise_mask hyp_mask decoder_opt task_id

/-- Concrete configuration for C1: BERT encoder, dump_feature off, one
declared task (defaults mirror the module-level smoke test at
modeling_mtdnn.py lines 177-187, which constructs MTDNNModel(config)). -/
def cfgC1 : MTDNNConfig :=
  { encoder_type := EncoderModelType.BERT
    dump_feature := false
    update_bert_opt := 0
    decoder_opts := [0]
    task_types := [TaskType.Other]
    n_class := [3]
    tasks_dropout_p := [1 / 10]
    enable_variational_dropout := false
    init_ratio := 1
    init_checkpoint := "mtdnn-base-uncased"
    hidden_size := 4 }

/-- Concrete configuration for C2: the RoBERTa encoder is selected. -/
def cfgC2 : MTDNNConfig :=
  { cfgC1 with encoder_type := EncoderModelType.ROBERTA }

/-- Concrete model state for C3: one declared task of type Other with
the pairwise decoder option. -/
def sC3 : ModelState :=
  { encoder_type := EncoderModelType.BERT
    hidden_size := 4
    pooler := none
    dropout_list := [⟨1 / 10, false⟩]
    decoder_opts := some [1]
    scoring_list := some [⟨4, 3⟩]
    task_types := some [TaskType.Other]
    n_class := some [3]
    bert_frozen := false
    local_updates := 0 }

/-- Concrete model state for C4: one declared task of type Span with a
hidden-size-to-2 scoring head, decoder option 0. -/
def sC4 : ModelState :=
  { sC3 with decoder_opts := some [0]
             scoring_list := some [⟨4, 2⟩]
             task_types := some [TaskType.Span]
             n_class := some [2] }

/-- Concrete model state for C5: one declared task of type
SequenceLabeling with class count 5. -/
def sC5 : ModelState :=
  { sC3 with decoder_opts := some [0]
             scoring_list := some [⟨4, 5⟩]
             task_types := some [TaskType.SequenceLabeling]
             n_class := some [5] }

/-- Concrete configuration for C8: dump_feature on, BERT encoder. -/
def cfgC8 : MTDNNConfig :=
  { cfgC1 with dump_feature := true }

/-- The model state that construction from cfgC8 produces: head
construction skipped, so only the always-assigned attributes exist. -/
def stC8 : ModelState :=
  { encoder_type := EncoderModelType.BERT
    hidden_size := 4
    pooler := none
    dropout_list := []
    decoder_opts := none
    scoring_list := none
    task_types := none
    n_class := none
    bert_frozen := false
    local_updates := 0 }

/-- Concrete model state for C9: RoBERTa encoder with a pooling adapter
present and a SequenceLabeling task. -/
def sC9 : ModelState :=
  { sC5 with encoder_type := EncoderModelType.ROBERTA
             pooler := some 4 }

/-- Concrete model state for C10: two declared tasks of type Other with
the default decoder option. -/
def sC10 : ModelState :=
  { encoder_type := EncoderModelType.BERT
    hidden_size := 4
    pooler := none
    dropout_list := [⟨1 / 10, false⟩, ⟨1 / 5, false⟩]
    decoder_opts := some [0, 5]
    scoring_list := some [⟨4, 3⟩, ⟨4, 7⟩]
    task_types := some [TaskType.Other, TaskType.Other]
    n_class := some [3, 7]
    bert_frozen := false
    local_updates := 0 }

/-- Python list subscription with a negative index in range shifts the
index by the list length once; both reads land on the same element. -/
theorem pyGet_shift {α : Type} (xs : List α) (n : Nat) (i : Int)
    (hlen : xs.length = n) (h1 : -(n : Int) ≤ i) (h2 : i < 0) :
    pyGet xs i = pyGet xs (i + (n : Int)) := by
  have h3 : ¬ (i + (n : Int) < 0) := by omega
  simp only [pyGet, hlen]
  rw [if_pos h2, if_neg h3, if_neg h3, if_neg h3]

/-- Python list subscription with a negative index in range succeeds and
returns the element at position length + index. -/
theorem pyGet_neg_ok {α : Type} (xs : List α) (n : Nat) (i : Int)
    (hlen : xs.length = n) (h1 : -(n : Int) ≤ i) (h2 : i < 0) :
    ∃ v, pyGet xs i = Except.ok v ∧ xs.get? (i + (n : Int)).toNat = some v := by
  have hlt : (i + (n : Int)).toNat < xs.length := by omega
  have hg : xs.get? (i + (n : Int)).toNat =
      some (xs.get ⟨(i + (n : Int)).toNat, hlt⟩) := List.get?_eq_get hlt
  refine ⟨xs.get ⟨(i + (n : Int)).toNat, hlt⟩, ?_, hg⟩
  have h3 : ¬ (i + (n : Int) < 0) := by omega
  simp only [pyGet, hlen]
  rw [if_pos h2, if_neg h3, hg]

/-- C1: the claim says that for every configuration with dump_feature
false declaring n tasks, construction succeeds with per-task containers
of length n.  The code violates it: MTDNNModel.__init__ raises on every
such configuration (NameError on hidden_size for the RoBERTa branch,
NameError on the unimported DropoutWrapper once the head loop starts,
and AttributeError on the unassigned attribute opt inside _my_init when
the task list is empty), so no model instance with per-task containers
is ever produced. -/
theorem c1_construction_fails_without_dump_feature (c : MTDNNConfig)
    (h : c.dump_feature = false) : ∃ e, initModel c = Except.error e := by
  by_cases henc : c.encoder_type = EncoderModelType.ROBERTA
  · exact ⟨PyErr.nameError "hidden_size", by simp [initModel, henc]⟩
  · by_cases hn : 0 < c.n_class.length
    · exact ⟨PyErr.nameError "DropoutWrapper", by simp [initModel, henc, h, hn]⟩
    · exact ⟨PyErr.attributeError "MTDNNModel" "opt",
        by simp [initModel, henc, h, hn]⟩

/-- Witness for C1 at the concrete one-task configuration cfgC1. -/
theorem c1_witness : ∃ e, initModel cfgC1 = Except.error e :=
  c1_construction_fails_without_dump_feature cfgC1 rfl

/-- C2: the claim says that selecting the RoBERTa encoder type yields a
model with a pooling adapter.  The code violates it: line 72 of
modeling_mtdnn.py evaluates LinearPooler(hidden_size) where the name
hidden_size is unbound (only self.hidden_size was assigned at line 71),
so construction raises NameError and no adapter is installed. -/
theorem c2_roberta_construction_name_error (c : MTDNNConfig)
    (h : c.encoder_type = EncoderModelType.ROBERTA) :
    initModel c = Except.error (PyErr.nameError "hidden_size") := by
  simp [initModel, h]

/-- Witness for C2 at the concrete RoBERTa configuration cfgC2. -/
theorem c2_witness :
    initModel cfgC2 = Except.error (PyErr.nameError "hidden_size") :=
  c2_roberta_construction_name_error cfgC2 rfl

/-- C3: for a task of type Other whose decoder option is the pairwise
code 1, calling forward with hyp_mask = None fails hard (AttributeError
from evaluating hyp_mask.size(1) on None at line 163, before the
asserts) and never reaches the default dropout-plus-linear path. -/
theorem c3_pairwise_missing_hyp_mask_fails (s : ModelState)
    (ii tt am : Tensor) (pm : Option Tensor) (tid : Int)
    (dl : List Int) (tl : List TaskType)
    (henc : s.encoder_type = EncoderModelType.BERT)
    (hdl : s.decoder_opts = some dl) (hd : pyGet dl tid = Except.ok 1)
    (htl : s.task_types = some tl)
    (ht : pyGet tl tid = Except.ok TaskType.Other) :
    forward s ii tt am pm none tid =
      Except.error (PyErr.attributeError "NoneType" "size") := by
  simp [forward, otherForward, henc, hdl, hd, htl, ht]

/-- Witness for C3 at the concrete pairwise-task state sC3. -/
theorem c3_witness :
    forward sC3 ⟨[2, 3]⟩ ⟨[2, 3]⟩ ⟨[2, 3]⟩ none none 0 =
      Except.error (PyErr.attributeError "NoneType" "size") :=
  c3_pairwise_missing_hyp_mask_fails sC3 ⟨[2, 3]⟩ ⟨[2, 3]⟩ ⟨[2, 3]⟩ none 0
    [1] [TaskType.Other] rfl rfl rfl rfl rfl

/-- C4: for a task declared with type Span (scoring head hidden -> 2 as
built by __init__ lines 97-98) whose decoder option is not the pairwise
code, forward applies dropout to the sequence output, projects to 2
channels, splits and squeezes, and returns a pair of score tensors each
of shape [batch, sequence length]. -/
theorem c4_span_forward_shapes (s : ModelState) (ii tt am : Tensor)
    (pm hm : Option Tensor) (tid : Int) (b q : Nat)
    (dl : List Int) (tl : List TaskType) (sl : List LinearM)
    (d : Int) (dw : DropoutWrapperM)
    (hshape : ii.shape = [b, q])
    (henc : s.encoder_type = EncoderModelType.BERT)
    (hdl : s.decoder_opts = some dl) (hd : pyGet dl tid = Except.ok d)
    (hd1 : d ≠ 1)
    (htl : s.task_types = some tl)
    (ht : pyGet tl tid = Except.ok TaskType.Span)
    (hdw : pyGet s.dropout_list tid = Except.ok dw)
    (hsl : s.scoring_list = some sl)
    (hhead : pyGet sl tid = Except.ok ⟨s.hidden_size, 2⟩) :
    forward s ii tt am pm hm tid =
      Except.ok (FwdOut.pair ⟨[b, q]⟩ ⟨[b, q]⟩) := by
  simp [forward, spanForward, henc, hdl, hd, hd1, htl, ht, hdw, hsl, hhead,
    hshape, linearApply, lastDim, dropLastDim, squeezeLast, dropoutApply]

/-- Witness for C4 at the concrete Span-task state sC4 with a 2-by-3
batch. -/
theorem c4_witness :
    forward sC4 ⟨[2, 3]⟩ ⟨[2, 3]⟩ ⟨[2, 3]⟩ none none 0 =
      Except.ok (FwdOut.pair ⟨[2, 3]⟩ ⟨[2, 3]⟩) :=
  c4_span_forward_shapes sC4 ⟨[2, 3]⟩ ⟨[2, 3]⟩ ⟨[2, 3]⟩ none none 0 2 3
    [0] [TaskType.Span] [⟨4, 2⟩] 0 ⟨1 / 10, false⟩ rfl rfl rfl rfl
    (by decide) rfl rfl rfl rfl rfl

/-- C5: for a task declared with type SequenceLabeling (scoring head
hidden -> class count as built by __init__ lines 99-100) under the BERT
encoder, forward takes the last encoder layer, applies the task dropout,
flattens batch and sequence into one leading dimension, projects to
class-count channels, and returns logits of shape
[batch * sequence length, class count]: the last dimension equals the
task's declared class count. -/
theorem c5_sequence_labeling_forward_shapes (s : ModelState)
    (ii tt am : Tensor) (pm hm : Option Tensor) (tid : Int)
    (b q ccount : Nat)
    (dl : List Int) (tl : List TaskType) (sl : List LinearM)
    (ncl : List Nat) (d : Int) (dw : DropoutWrapperM)
    (hshape : ii.shape = [b, q])
    (henc : s.encoder_type = EncoderModelType.BERT)
    (hdl : s.decoder_opts = some dl) (hd : pyGet dl tid = Except.ok d)
    (htl : s.task_types = some tl)
    (ht : pyGet tl tid = Except.ok TaskType.SequenceLabeling)
    (hdw : pyGet s.dropout_list tid = Except.ok dw)
    (hsl : s.scoring_list = some sl)
    (hnc : s.n_class = some ncl) (hcc : pyGet ncl tid = Except.ok ccount)
    (hhead : pyGet sl tid = Except.ok ⟨s.hidden_size, ccount⟩) :
    forward s ii tt am pm hm tid =
      Except.ok (FwdOut.single ⟨[b * q, ccount]⟩) := by
  simp [forward, seqLabelForward, henc, hdl, hd, htl, ht, hdw, hsl, hhead,
    hshape, view3, linearApply, lastDim, dropLastDim, dropoutApply]

/-- Witness for C5 at the concrete SequenceLabeling state sC5 with a
2-by-3 batch and class count 5. -/
theorem c5_witness :
    forward sC5 ⟨[2, 3]⟩ ⟨[2, 3]⟩ ⟨[2, 3]⟩ none none 0 =
      Except.ok (FwdOut.single ⟨[2 * 3, 5]⟩) :=
  c5_sequence_labeling_forward_shapes sC5 ⟨[2, 3]⟩ ⟨[2, 3]⟩ ⟨[2, 3]⟩ none none 0
    2 3 5 [0] [TaskType.SequenceLabeling] [⟨4, 5⟩] [5] 0 ⟨1 / 10, false⟩
    rfl rfl rfl rfl rfl rfl rfl rfl rfl rfl rfl

/-- C6: the claim says every linear and embedding module is initialized
from a scaled normal distribution and every normalization module gets
scale 1 and shift 0.  The code violates it: the init_weights closure of
_my_init raises on every module it visits (AttributeError on the
unassigned attribute opt for Linear and Embedding modules, NameError on
the unimported BertLayerNorm for all others), so no parameter is ever
initialized. -/
theorem c6_init_weights_always_errors (m : ModuleKind) :
    ∃ e, init_weights m = Except.error e := by
  cases m
  · exact ⟨PyErr.attributeError "MTDNNModel" "opt", rfl⟩
  · exact ⟨PyErr.attributeError "MTDNNModel" "opt", rfl⟩
  · exact ⟨PyErr.nameError "BertLayerNorm", rfl⟩
  · exact ⟨PyErr.nameError "BertLayerNorm", rfl⟩

/-- Witness for C6 at a concrete module kind (an nn.Linear). -/
theorem c6_witness : ∃ e, init_weights ModuleKind.linear = Except.error e :=
  c6_init_weights_always_errors ModuleKind.linear

/-- C7: a constructor argument that is not an instance of the expected
configuration type is rejected immediately with a ValueError whose
message names the expected class PretrainedConfig, and no model state is
produced (the result is an error, never ok). -/
theorem c7_invalid_config_rejected (clsName description : String) :
    mtdnnPretrainedInit clsName (ConfigArg.nonConfig description) =
      Except.error (PyErr.valueError (configTypeErrorMsg clsName)) ∧
    ∃ a b, configTypeErrorMsg clsName = a ++ ("PretrainedConfig" ++ b) := by
  refine ⟨rfl,
    "Parameter config in `" ++ clsName ++
      "(config)` should be an instance of class `",
    "`. To create a model from a pretrained model use `model = " ++ clsName ++
      ".from_pretrained(PRETRAINED_MODEL_NAME)`", ?_⟩
  rfl

/-- Witness for C7 at a concrete class name and argument description. -/
theorem c7_witness :
    mtdnnPretrainedInit "MTDNNModel" (ConfigArg.nonConfig "a plain dict") =
      Except.error (PyErr.valueError (configTypeErrorMsg "MTDNNModel")) ∧
    ∃ a b, configTypeErrorMsg "MTDNNModel" = a ++ ("PretrainedConfig" ++ b) :=
  c7_invalid_config_rejected "MTDNNModel" "a plain dict"

/-- C8: every configuration with dump_feature true whose construction
succeeds yields a model with no task heads (empty dropout list, no
scoring list, no task-type list), and every subsequent forward call on
it fails (AttributeError on the never-assigned attribute decoder_opts)
instead of returning task predictions. -/
theorem c8_dump_feature_no_heads (c : MTDNNConfig) (s : ModelState)
    (ii tt am : Tensor) (pm hm : Option Tensor) (tid : Int)
    (hdf : c.dump_feature = true)
    (hinit : initModel c = Except.ok s) :
    s.scoring_list = none ∧ s.task_types = none ∧ s.dropout_list = [] ∧
      forward s ii tt am pm hm tid =
        Except.error (PyErr.attributeError "MTDNNModel" "decoder_opts") := by
  by_cases henc : c.encoder_type = EncoderModelType.ROBERTA
  · simp [initModel, henc] at hinit
  · simp [initModel, henc, hdf] at hinit
    subst hinit
    refine ⟨rfl, rfl, rfl, ?_⟩
    simp [forward, henc]

/-- Witness for C8 at the concrete dump_feature configuration cfgC8 and
its constructed state stC8. -/
theorem c8_witness :
    stC8.scoring_list = none ∧ stC8.task_types = none ∧
      stC8.dropout_list = [] ∧
      forward stC8 ⟨[2, 3]⟩ ⟨[2, 3]⟩ ⟨[2, 3]⟩ none none 0 =
        Except.error (PyErr.attributeError "MTDNNModel" "decoder_opts") :=
  c8_dump_feature_no_heads cfgC8 stC8 ⟨[2, 3]⟩ ⟨[2, 3]⟩ ⟨[2, 3]⟩ none none 0
    rfl rfl

/-- C9: under the RoBERTa encoder type (with the pooling adapter
present so that encoding itself succeeds), dispatching a task of type
SequenceLabeling reads the local variable all_encoder_layers, which is
assigned only on the BERT encoding path, so forward fails with an
unbound-local (undefined-name) error instead of returning logits. -/
theorem c9_roberta_sequence_labeling_unbound (s : ModelState)
    (ii tt am : Tensor) (pm hm : Option Tensor) (tid : Int)
    (dl : List Int) (tl : List TaskType) (ph : Nat) (d : Int)
    (henc : s.encoder_type = EncoderModelType.ROBERTA)
    (hp : s.pooler = some ph)
    (hdl : s.decoder_opts = some dl) (hd : pyGet dl tid = Except.ok d)
    (htl : s.task_types = some tl)
    (ht : pyGet tl tid = Except.ok TaskType.SequenceLabeling) :
    forward s ii tt am pm hm tid =
      Except.error (PyErr.unboundLocalError "all_encoder_layers") := by
  simp [forward, seqLabelForward, henc, hp, hdl, hd, htl, ht]

/-- Witness for C9 at the concrete RoBERTa SequenceLabeling state sC9. -/
theorem c9_witness :
    forward sC9 ⟨[2, 3]⟩ ⟨[2, 3]⟩ ⟨[2, 3]⟩ none none 0 =
      Except.error (PyErr.unboundLocalError "all_encoder_layers") :=
  c9_roberta_sequence_labeling_unbound sC9 ⟨[2, 3]⟩ ⟨[2, 3]⟩ ⟨[2, 3]⟩ none none 0
    [0] [TaskType.SequenceLabeling] 4 0 rfl rfl rfl rfl rfl rfl

/-- C10: on a model declaring n tasks, a negative task_id in the range
[-n, -1] is not rejected: every task-indexed subscription (decoder
option, task type, dropout module, scoring head) silently resolves to
position n + task_id, and the whole forward call behaves exactly as it
does for task id n + task_id. -/
theorem c10_negative_task_id_wraps (s : ModelState) (ii tt am : Tensor)
    (pm hm : Option Tensor) (n : Nat) (tid : Int)
    (dl : List Int) (tl : List TaskType) (sl : List LinearM)
    (hdl : s.decoder_opts = some dl) (hdln : dl.length = n)
    (htl : s.task_types = some tl) (htln : tl.length = n)
    (hdr : s.dropout_list.length = n)
    (hsl : s.scoring_list = some sl) (hsln : sl.length = n)
    (h1 : -(n : Int) ≤ tid) (h2 : tid < 0) :
    forward s ii tt am pm hm tid = forward s ii tt am pm hm (tid + (n : Int)) ∧
    (∃ v, pyGet dl tid = Except.ok v ∧
      dl.get? (tid + (n : Int)).toNat = some v) ∧
    (∃ v, pyGet tl tid = Except.ok v ∧
      tl.get? (tid + (n : Int)).toNat = some v) ∧
    (∃ v, pyGet s.dropout_list tid = Except.ok v ∧
      s.dropout_list.get? (tid + (n : Int)).toNat = some v) ∧
    (∃ v, pyGet sl tid = Except.ok v ∧
      sl.get? (tid + (n : Int)).toNat = some v) := by
  refine ⟨?_, pyGet_neg_ok dl n tid hdln h1 h2, pyGet_neg_ok tl n tid htln h1 h2,
    pyGet_neg_ok s.dropout_list n tid hdr h1 h2,
    pyGet_neg_ok sl n tid hsln h1 h2⟩
  simp only [forward, spanForward, seqLabelForward, otherForward, hdl, htl, hsl,
    pyGet_shift dl n tid hdln h1 h2, pyGet_shift tl n tid htln h1 h2,
    pyGet_shift s.dropout_list n tid hdr h1 h2,
    pyGet_shift sl n tid hsln h1 h2]

/-- Witness for C10 at the concrete two-task state sC10 with
task_id = -1, which resolves to the last declared task (position 1). -/
theorem c10_witness :
    (forward sC10 ⟨[2, 3]⟩ ⟨[2, 3]⟩ ⟨[2, 3]⟩ none none (-1) =
      forward sC10 ⟨[2, 3]⟩ ⟨[2, 3]⟩ ⟨[2, 3]⟩ none none (-1 + (2 : Int))) ∧
    (∃ v, pyGet [(0 : Int), 5] (-1) = Except.ok v ∧
      [(0 : Int), 5].get? ((-1) + ((2 : Nat) : Int)).toNat = some v) ∧
    (∃ v, pyGet [TaskType.Other, TaskType.Other] (-1) = Except.ok v ∧
      [TaskType.Other, TaskType.Other].get? ((-1) + ((2 : Nat) : Int)).toNat =
        some v) ∧
    (∃ v, pyGet sC10.dropout_list (-1) = Except.ok v ∧
      sC10.dropout_list.get? ((-1) + ((2 : Nat) : Int)).toNat = some v) ∧
    (∃ v, pyGet [(⟨4, 3⟩ : LinearM), ⟨4, 7⟩] (-1) = Except.ok v ∧
      [(⟨4, 3⟩ : LinearM), ⟨4, 7⟩].get? ((-1) + ((2 : Nat) : Int)).toNat =
        some v) :=
  c10_negative_task_id_wraps sC10 ⟨[2, 3]⟩ ⟨[2, 3]⟩ ⟨[2, 3]⟩ none none 2 (-1)
    [0, 5] [TaskType.Other, TaskType.Other] [⟨4, 3⟩, ⟨4, 7⟩]
    rfl rfl rfl rfl rfl rfl rfl (by decide) (by decide)

end MTDNN
